import Mathlib

/-!
Verification of gdb's target-reported shared-library subsystem
(`gdb/solib-target.c`): a shallow embedding of the library-list parser
(`solib_target_parse_libraries` and its element handlers), the list
builder (`solib_target_current_sos`), the record destructor
(`solib_target_free_so`) and the relocation engine
(`solib_target_relocate_section_addresses`), with theorems about the
documented properties of these operations.

Machine addresses (`CORE_ADDR`, `ULONGEST`) are modelled as `Nat` with
explicit reduction modulo `2^64` where the C arithmetic can wrap.
`gdb_assert` is modelled by returning `none` (the debugger aborts the
operation); `warning` is modelled by a boolean flag in the result.
The collaborators that are external to this file of the repository
(`get_symfile_segment_data`, `symfile_map_offsets_to_segments`, the
target fetch and the expat XML tokeniser) are inputs of the model, as
the specification treats them as external capabilities.
-/

namespace SolibTarget

/-- Width of a `CORE_ADDR` / `ULONGEST`: 64-bit machine words. -/
def WORD : Nat := 2 ^ 64

/-- Wrapping addition of machine words, as in C unsigned arithmetic. -/
def wadd (a b : Nat) : Nat := (a + b) % WORD

/-- Wrapping subtraction of machine words, as in C unsigned arithmetic. -/
def wsub (a b : Nat) : Nat := (a + (WORD - b % WORD)) % WORD

/-- Maximum path size for a shared-object name (`SO_NAME_MAX_PATH_SIZE`
from `solist.h`, 512 in gdb). -/
def SO_NAME_MAX_PATH_SIZE : Nat := 512

/-- One section of the opened BFD object file, as the relocation code
reads it: its `SEC_ALLOC` flag (`bfd_get_section_flags ... & SEC_ALLOC`)
and its size (`bfd_section_size`). Sections are listed in the file's
native enumeration order (`so->abfd->sections`). -/
structure BfdSection where
  flagAlloc : Bool
  size : Nat
deriving DecidableEq

/-- Result of `get_symfile_segment_data`: the file-declared segment
layout (bases, sizes, and the segment count `num_segments`). -/
structure SegmentData where
  num_segments : Nat
  segment_bases : List Nat
  segment_sizes : List Nat
deriving DecidableEq

/-- Private data for each loaded library (`struct lm_info_target`):
the name (kept only during XML parsing), the target-reported segment
bases or section bases (at most one nonempty), and the lazily computed
offset-table cache (`section_offsets *offsets`, `NULL` until the first
relocation computes it). -/
structure LmInfoTarget where
  name : List Char
  segment_bases : List Nat
  section_bases : List Nat
  offsets : Option (List Nat)
deriving DecidableEq

/-- The generic loaded-shared-object node (`struct so_list`), with the
fields this subsystem populates or reads: the two name buffers, the
back-reference to the library record, the address range, and the opened
object file's section list (`so->abfd->sections`; empty until the file
is opened). `XCNEW` zero-initialises the node, so a fresh node has
`addr_low = addr_high = 0`. -/
structure SoList where
  so_name : List Char
  so_original_name : List Char
  lm_info : LmInfoTarget
  addr_low : Nat
  addr_high : Nat
  abfd_sections : List BfdSection
deriving DecidableEq

/-- A `struct target_section` as the relocation code touches it: its
start and end addresses and the index of its BFD section in the object
file's section enumeration (`gdb_bfd_section_index`). -/
structure TargetSection where
  addr : Nat
  endaddr : Nat
  sectionIndex : Nat
deriving DecidableEq

/-- One child element of a `<library>` element in the XML description:
a `<segment address=.../>` or a `<section address=.../>`, with the
attribute already parsed to a machine word by the tokeniser. -/
inductive LibEntry where
  | segmentElem (address : Nat)
  | sectionElem (address : Nat)
deriving DecidableEq

/-- A `<library name=...>` element with its child elements in document
order. -/
structure LibraryElem where
  name : List Char
  entries : List LibEntry
deriving DecidableEq

/-- A `<library-list>` document after XML tokenisation: the optional
`version` attribute and the `<library>` children in document order. -/
structure LibraryListDoc where
  version : Option String
  libraries : List LibraryElem
deriving DecidableEq

/-- Processing of the child elements of one `<library>`, in document
order: `library_list_start_segment` appends to `segment_bases` but
fails (`gdb_xml_error`) when `section_bases` is already nonempty, and
`library_list_start_section` appends to `section_bases` but fails when
`segment_bases` is already nonempty. -/
def parseEntries : List LibEntry → LmInfoTarget → Option LmInfoTarget
  | [], lm => some lm
  | .segmentElem a :: rest, lm =>
    if lm.section_bases ≠ [] then none
    else parseEntries rest { lm with segment_bases := lm.segment_bases ++ [a] }
  | .sectionElem a :: rest, lm =>
    if lm.segment_bases ≠ [] then none
    else parseEntries rest { lm with section_bases := lm.section_bases ++ [a] }

/-- Processing of one `<library>` element: `library_list_start_library`
creates the record with the `name` attribute and empty base lists, the
children are processed in order, and `library_list_end_library` fails
when neither segment nor section bases were defined. -/
def parseLibraryElem (lib : LibraryElem) : Option LmInfoTarget :=
  match parseEntries lib.entries
      { name := lib.name, segment_bases := [], section_bases := [], offsets := none } with
  | none => none
  | some lm =>
    if lm.segment_bases = [] ∧ lm.section_bases = [] then none else some lm

/-- Processing of the sequence of `<library>` children; any element
failure fails the whole parse (the cleanup discards the list). -/
def parseLibraryList : List LibraryElem → Option (List LmInfoTarget)
  | [] => some []
  | lib :: rest =>
    match parseLibraryElem lib with
    | none => none
    | some lm =>
      match parseLibraryList rest with
      | none => none
      | some rest' => some (lm :: rest')

/-- The parser `solib_target_parse_libraries` over a tokenised
document: `library_list_start_list` rejects a present `version`
attribute different from the literal `"1.0"` (an omitted attribute is
accepted), then the `<library>` children are processed; `none` models
the all-or-nothing failure path (`do_cleanups` discards the result). -/
def solib_target_parse_libraries : LibraryListDoc → Option (List LmInfoTarget)
  | { version := some v, libraries := libs } =>
    if v = "1.0" then parseLibraryList libs else none
  | { version := none, libraries := libs } => parseLibraryList libs

/-- The bounded name copy in `solib_target_current_sos`:
`strncpy (dst, src, SO_NAME_MAX_PATH_SIZE - 1)` followed by forcing
`dst[SO_NAME_MAX_PATH_SIZE - 1] = 0` keeps the first
`SO_NAME_MAX_PATH_SIZE - 1` characters of the name. -/
def soCopyName (name : List Char) : List Char :=
  name.take (SO_NAME_MAX_PATH_SIZE - 1)

/-- Construction of one generic node from a parsed record in
`solib_target_current_sos`: the node is zero-initialised (`XCNEW`),
both name buffers receive the bounded copy of the record's name, the
record is attached as `lm_info`, and the record's own `name` is cleared
(`info->name.clear ()`). -/
def makeSoList (info : LmInfoTarget) : SoList :=
  { so_name := soCopyName info.name
    so_original_name := soCopyName info.name
    lm_info := { info with name := [] }
    addr_low := 0
    addr_high := 0
    abfd_sections := [] }

/-- Enumeration `solib_target_current_sos`: the fetched document is an
input because the target fetch (`target_read_stralloc`) is external; no
document, or a failed parse, yields `NULL` (the empty list); otherwise
one node per record, in parse order. -/
def solib_target_current_sos : Option LibraryListDoc → List SoList
  | none => []
  | some doc =>
    match solib_target_parse_libraries doc with
    | none => []
    | some infos => infos.map makeSoList

/-- The destructor `solib_target_free_so`: `gdb_assert` that the
record's name has already been cleared, then release it; `none` models
the assertion firing. -/
def solib_target_free_so (so : SoList) : Option Unit :=
  if so.lm_info.name = [] then some () else none

/-- Count of sections carrying `SEC_ALLOC`, as the first loop of the
section-bases branch computes it. -/
def numAllocSections (sections : List BfdSection) : Nat :=
  (sections.filter (fun s => s.flagAlloc)).length

/-- Application of the cached offset to one target section (the tail of
`solib_target_relocate_section_addresses`): look up the offset at the
section's index in the file's enumeration and add it to both bounds. -/
def applyOffset (offsets : List Nat) (sec : TargetSection) : TargetSection :=
  let offset := offsets.getD sec.sectionIndex 0
  { sec with addr := wadd sec.addr offset, endaddr := wadd sec.endaddr offset }

/-- State threaded through the loop of the section-bases branch: the
native section index `i`, the running allocatable index `bases_index`,
the running `addr_low` / `addr_high`, the `found_range` flag, the
offset table under construction, and (instrumentation for the bounds
question) the list `range_reads` of indices at which the loop reads
`section_bases` for the range computation (`low = li->section_bases[i]`). -/
structure SecLoopState where
  i : Nat
  bases_index : Nat
  addr_low : Nat
  addr_high : Nat
  found_range : Bool
  offsets : List Nat
  range_reads : List Nat
deriving DecidableEq

/-- The per-section loop of the section-bases branch of
`solib_target_relocate_section_addresses`: non-allocatable sections
only advance `i`; an allocatable section of nonzero size reads
`low = li->section_bases[i]` (note: the native index `i`, an
out-of-range C++ vector read is modelled as reading `0`), forms
`high = low + size - 1` with wrapping, updates the running minimum and
maximum, and `gdb_assert (so->addr_low <= so->addr_high)`; every
allocatable section then stores `li->section_bases[bases_index]` into
the offset table at index `i` and advances `bases_index`. -/
def sectionLoop (bases : List Nat) : List BfdSection → SecLoopState → Option SecLoopState
  | [], st => some st
  | sect :: rest, st =>
    if sect.flagAlloc then
      match (if 0 < sect.size then
               let low := bases.getD st.i 0
               let high := (low + sect.size - 1) % WORD
               let al := if low < st.addr_low then low else st.addr_low
               let ah := if high > st.addr_high then high else st.addr_high
               if al ≤ ah then
                 some (al, ah, true, st.range_reads ++ [st.i])
               else none
             else some (st.addr_low, st.addr_high, st.found_range, st.range_reads)) with
      | none => none
      | some (al, ah, fr, reads) =>
        sectionLoop bases rest
          { i := st.i + 1
            bases_index := st.bases_index + 1
            addr_low := al
            addr_high := ah
            found_range := fr
            offsets := st.offsets.set st.i (bases.getD st.bases_index 0)
            range_reads := reads }
    else
      sectionLoop bases rest { st with i := st.i + 1 }

/-- Initial state of the section-bases loop: `i = 0`, `bases_index = 0`,
`so->addr_low = ~(CORE_ADDR) 0`, `so->addr_high = 0`, no range found,
the zero-initialised offset table. -/
def secLoopInit (num_sections : Nat) : SecLoopState :=
  { i := 0
    bases_index := 0
    addr_low := WORD - 1
    addr_high := 0
    found_range := false
    offsets := List.replicate num_sections 0
    range_reads := [] }

/-- The run-length scan of the segment-bases branch
(`for (i = 1; i < data->num_segments; i++)`): a segment beyond the
reported bases is skipped (`continue`, assuming it shares the last
delta), a segment whose delta differs from `orig_delta` stops the scan
(`break`), returning the loop variable `i` at exit. `remaining` is the
number of iterations left, `num_segments - i` at entry. -/
def segmentRunLoop (segBases dataBases : List Nat) (orig_delta : Nat) :
    Nat → Nat → Nat
  | 0, i => i
  | remaining + 1, i =>
    if segBases.length ≤ i then
      segmentRunLoop segBases dataBases orig_delta remaining (i + 1)
    else if wsub (segBases.getD i 0) (dataBases.getD i 0) ≠ orig_delta then i
    else segmentRunLoop segBases dataBases orig_delta remaining (i + 1)

/-- Result of one call to `solib_target_relocate_section_addresses`:
the updated node (address range and cached offsets), the adjusted
target section, whether this call computed the offset table (`computed`)
and whether it emitted a `warning` (`warned`). -/
structure RelocResult where
  so : SoList
  sec : TargetSection
  computed : Bool
  warned : Bool
deriving DecidableEq

/-- The relocation engine `solib_target_relocate_section_addresses`.
`segData` is the result of the external `get_symfile_segment_data` and
`mapResult` the result of the external `symfile_map_offsets_to_segments`
(`some table` means the call succeeded and filled the offset table with
`table`; `none` means it failed and the zero-initialised table is left
in place). When the cache `li->offsets` is already present, the call
only applies the cached offset to the section. Otherwise the table is
allocated zero-initialised and one of three paths fills it: the
section-bases branch (count check, then the per-section loop, then the
`found_range` collapse to `(0, 0)` and the final `gdb_assert`); the
segment-bases branch (absent layout warns and keeps the zero table and
the old range; otherwise a failed mapping warns but the code still
computes `orig_delta`, scans the leading run of segments sharing it,
and sets the range — `addr_high` has no `- 1` — under `gdb_assert`);
or, with no bases at all, the zero table is kept silently. In every
path the call ends by applying the table's offset to the section;
`none` models a firing `gdb_assert`. -/
def solib_target_relocate_section_addresses
    (segData : Option SegmentData) (mapResult : Option (List Nat))
    (so : SoList) (sec : TargetSection) : Option RelocResult :=
  let li := so.lm_info
  match li.offsets with
  | some table => some ⟨so, applyOffset table sec, false, false⟩
  | none =>
    let num_sections := so.abfd_sections.length
    let offsets0 := List.replicate num_sections 0
    if li.section_bases ≠ [] then
      if numAllocSections so.abfd_sections ≠ li.section_bases.length then
        some ⟨{ so with lm_info := { li with offsets := some offsets0 } },
              applyOffset offsets0 sec, true, true⟩
      else
        match sectionLoop li.section_bases so.abfd_sections (secLoopInit num_sections) with
        | none => none
        | some st =>
          let al := if st.found_range then st.addr_low else 0
          let ah := if st.found_range then st.addr_high else 0
          if al ≤ ah then
            let so' := { so with
              addr_low := al
              addr_high := ah
              lm_info := { li with offsets := some st.offsets } }
            some ⟨so', applyOffset st.offsets sec, true, false⟩
          else none
    else if li.segment_bases ≠ [] then
      match segData with
      | none =>
        some ⟨{ so with lm_info := { li with offsets := some offsets0 } },
              applyOffset offsets0 sec, true, true⟩
      | some data =>
        let table := mapResult.getD offsets0
        let mapWarned := mapResult.isNone
        let orig_delta := wsub (li.segment_bases.getD 0 0) (data.segment_bases.getD 0 0)
        let i := segmentRunLoop li.segment_bases data.segment_bases orig_delta
                   (data.num_segments - 1) 1
        let al := li.segment_bases.getD 0 0
        let ah := wadd (wadd (data.segment_bases.getD (i - 1) 0)
                             (data.segment_sizes.getD (i - 1) 0)) orig_delta
        if al ≤ ah then
          let so' := { so with
            addr_low := al
            addr_high := ah
            lm_info := { li with offsets := some table } }
          some ⟨so', applyOffset table sec, true, mapWarned⟩
        else none
    else
      some ⟨{ so with lm_info := { li with offsets := some offsets0 } },
            applyOffset offsets0 sec, true, false⟩

/-! Concrete inputs used by the evaluation theorems below. -/

/-- A target section of the opened file, at index 1 of the section
enumeration. -/
def exSec : TargetSection := { addr := 10, endaddr := 20, sectionIndex := 1 }

/-- A record with section bases `[100, 200]`, not yet relocated. -/
def exLiSections : LmInfoTarget :=
  { name := [], segment_bases := [], section_bases := [100, 200], offsets := none }

/-- A freshly enumerated node for `exLiSections` whose object file has
three sections: a non-allocatable one of size 5, then an allocatable
one of size 1, then an allocatable one of size 0 — two allocatable
sections, matching the two section bases, but interleaved with a
non-allocatable one. -/
def exSoInterleaved : SoList :=
  { so_name := []
    so_original_name := []
    lm_info := exLiSections
    addr_low := 0
    addr_high := 0
    abfd_sections := [⟨false, 5⟩, ⟨true, 1⟩, ⟨true, 0⟩] }

/-- Sections of an object file with one non-allocatable section before
the single allocatable one. -/
def exSectionsTrailingAlloc : List BfdSection := [⟨false, 1⟩, ⟨true, 1⟩]

/-- A single reported section base for `exSectionsTrailingAlloc`. -/
def exBasesOne : List Nat := [7]

/-- A record with segment bases `0x1000` and `0x2000`, not yet
relocated. -/
def exLiSegments : LmInfoTarget :=
  { name := [], segment_bases := [0x1000, 0x2000], section_bases := [], offsets := none }

/-- A freshly enumerated node for `exLiSegments`. -/
def exSoSegments : SoList :=
  { so_name := []
    so_original_name := []
    lm_info := exLiSegments
    addr_low := 0
    addr_high := 0
    abfd_sections := [] }

/-- The same node with segment bases `0x1000` and `0x1600`, so that
segment 1's delta against `exSegData` equals segment 0's. -/
def exSoSegmentsMatched : SoList :=
  { exSoSegments with
    lm_info := { exLiSegments with segment_bases := [0x1000, 0x1600] } }

/-- File-declared segment layout: two segments of sizes `0x500` and
`0x300` at file-relative bases `0x0` and `0x600`. -/
def exSegData : SegmentData :=
  { num_segments := 2, segment_bases := [0x0, 0x600], segment_sizes := [0x500, 0x300] }

/-- A node with a single segment base `0x1000`, not yet relocated. -/
def exSoOneSegment : SoList :=
  { so_name := []
    so_original_name := []
    lm_info := { name := [], segment_bases := [0x1000], section_bases := [], offsets := none }
    addr_low := 0
    addr_high := 0
    abfd_sections := [] }

/-- File-declared layout with one segment of size `0x500` at base 0. -/
def exSegDataOne : SegmentData :=
  { num_segments := 1, segment_bases := [0], segment_sizes := [0x500] }

/-- A node reporting one section base whose object file has no
sections: zero allocatable sections against one base. -/
def exSoCountMismatch : SoList :=
  { so_name := []
    so_original_name := []
    lm_info := { name := [], segment_bases := [], section_bases := [5], offsets := none }
    addr_low := 0
    addr_high := 0
    abfd_sections := [] }

/-- A node whose object file's sections are all allocatable, matching
its two section bases. -/
def exSoAllAlloc : SoList :=
  { so_name := []
    so_original_name := []
    lm_info := { name := [], segment_bases := [], section_bases := [100, 300], offsets := none }
    addr_low := 0
    addr_high := 0
    abfd_sections := [⟨true, 5⟩, ⟨true, 2⟩] }

/-- The result of the first relocate call on `exSoAllAlloc` and
`exSec`: range `(100, 301)`, cached table `[100, 300]`, the section at
index 1 shifted by 300. -/
def exRelocResultAll : RelocResult :=
  { so := { exSoAllAlloc with
      addr_low := 100
      addr_high := 301
      lm_info := { exSoAllAlloc.lm_info with offsets := some [100, 300] } }
    sec := { addr := 310, endaddr := 320, sectionIndex := 1 }
    computed := true
    warned := false }

/-- A second target section of the same object file, at index 0. -/
def exSec2 : TargetSection := { addr := 1000, endaddr := 1004, sectionIndex := 0 }

/-- The name the claim predicts for a node: the parsed name when it is
shorter than the maximum path size, the name truncated to the maximum
storable length otherwise. -/
def claimedName (name : List Char) : List Char :=
  if name.length < SO_NAME_MAX_PATH_SIZE then name
  else name.take (SO_NAME_MAX_PATH_SIZE - 1)

/-- The bounded copy agrees with the claimed truncation behaviour. -/
theorem soCopyName_eq_claimedName (name : List Char) :
    soCopyName name = claimedName name := by
  unfold soCopyName claimedName
  split
  · exact List.take_of_length_le (by omega)
  · rfl

/-- Element processing does not change the record's name. -/
theorem parseEntries_name (es : List LibEntry) :
    ∀ lm lm', parseEntries es lm = some lm' → lm'.name = lm.name := by
  induction es with
  | nil =>
    intro lm lm' h
    simp [parseEntries] at h
    rw [← h]
  | cons e rest ih =>
    intro lm lm' h
    cases e with
    | segmentElem a =>
      rw [parseEntries] at h
      split at h
      · exact absurd h (by simp)
      · exact ih { lm with segment_bases := lm.segment_bases ++ [a] } lm' h
    | sectionElem a =>
      rw [parseEntries] at h
      split at h
      · exact absurd h (by simp)
      · exact ih { lm with section_bases := lm.section_bases ++ [a] } lm' h

/-- A successfully parsed record carries its library element's name. -/
theorem parseLibraryElem_name (lib : LibraryElem) (lm : LmInfoTarget)
    (h : parseLibraryElem lib = some lm) : lm.name = lib.name := by
  unfold parseLibraryElem at h
  split at h
  · exact absurd h (by simp)
  · rename_i lm0 he
    split at h
    · exact absurd h (by simp)
    · injection h with h
      rw [← h]
      exact parseEntries_name _ _ _ he

/-- A successful parse yields one record per library element, in
document order, each carrying its element's name. -/
theorem parseLibraryList_names (libs : List LibraryElem) :
    ∀ infos, parseLibraryList libs = some infos →
      infos.map LmInfoTarget.name = libs.map LibraryElem.name := by
  induction libs with
  | nil =>
    intro infos h
    simp [parseLibraryList] at h
    subst h
    rfl
  | cons lib rest ih =>
    intro infos h
    rw [parseLibraryList] at h
    split at h
    · exact absurd h (by simp)
    · rename_i lm he
      split at h
      · exact absurd h (by simp)
      · rename_i rest' hr
        injection h with h
        rw [← h]
        simp [parseLibraryElem_name lib lm he, ih rest' hr]

/-- Processing a `<segment>` child fails whenever section bases are
already present, so a library whose remaining children include a
`<section>` can never parse once its segment bases are nonempty. -/
theorem parseEntries_fails_of_segments_then_section (es : List LibEntry) :
    ∀ lm : LmInfoTarget, lm.segment_bases ≠ [] →
      (∃ a, LibEntry.sectionElem a ∈ es) → parseEntries es lm = none := by
  induction es with
  | nil =>
    intro lm _ hsec
    obtain ⟨a, ha⟩ := hsec
    exact absurd ha (by simp)
  | cons e rest ih =>
    intro lm hseg hsec
    obtain ⟨a, ha⟩ := hsec
    cases e with
    | segmentElem b =>
      rw [parseEntries]
      split
      · rfl
      · refine ih _ (by simp) ⟨a, ?_⟩
        cases ha with
        | tail _ hmem => exact hmem
    | sectionElem b =>
      rw [parseEntries]
      rw [if_pos hseg]

/-- Symmetrically, a library whose remaining children include a
`<segment>` can never parse once its section bases are nonempty. -/
theorem parseEntries_fails_of_sections_then_segment (es : List LibEntry) :
    ∀ lm : LmInfoTarget, lm.section_bases ≠ [] →
      (∃ a, LibEntry.segmentElem a ∈ es) → parseEntries es lm = none := by
  induction es with
  | nil =>
    intro lm _ hseg
    obtain ⟨a, ha⟩ := hseg
    exact absurd ha (by simp)
  | cons e rest ih =>
    intro lm hsec hseg
    obtain ⟨a, ha⟩ := hseg
    cases e with
    | sectionElem b =>
      rw [parseEntries]
      split
      · rfl
      · refine ih _ (by simp) ⟨a, ?_⟩
        cases ha with
        | tail _ hmem => exact hmem
    | segmentElem b =>
      rw [parseEntries]
      rw [if_pos hsec]

/-- Element processing of a child list containing both a segment and a
section fails from the parser's empty starting record. -/
theorem parseEntries_fails_of_mixed (es : List LibEntry)
    (lm : LmInfoTarget) (h1 : lm.segment_bases = []) (h2 : lm.section_bases = [])
    (hseg : ∃ a, LibEntry.segmentElem a ∈ es)
    (hsec : ∃ a, LibEntry.sectionElem a ∈ es) :
    parseEntries es lm = none := by
  cases es with
  | nil =>
    obtain ⟨a, ha⟩ := hseg
    exact absurd ha (by simp)
  | cons e rest =>
    cases e with
    | segmentElem b =>
      rw [parseEntries]
      rw [if_neg (by simp [h2])]
      refine parseEntries_fails_of_segments_then_section rest _ (by simp) ?_
      obtain ⟨a, ha⟩ := hsec
      refine ⟨a, ?_⟩
      cases ha with
      | tail _ hmem => exact hmem
    | sectionElem b =>
      rw [parseEntries]
      rw [if_neg (by simp [h1])]
      refine parseEntries_fails_of_sections_then_segment rest _ (by simp) ?_
      obtain ⟨a, ha⟩ := hseg
      refine ⟨a, ?_⟩
      cases ha with
      | tail _ hmem => exact hmem

/-- A library element with mixed children fails to parse. -/
theorem parseLibraryElem_fails_of_mixed (lib : LibraryElem)
    (hseg : ∃ a, LibEntry.segmentElem a ∈ lib.entries)
    (hsec : ∃ a, LibEntry.sectionElem a ∈ lib.entries) :
    parseLibraryElem lib = none := by
  unfold parseLibraryElem
  rw [parseEntries_fails_of_mixed lib.entries _ rfl rfl hseg hsec]

/-- One failing library element fails the whole library-list parse. -/
theorem parseLibraryList_fails_of_mem (libs : List LibraryElem)
    (lib : LibraryElem) (hmem : lib ∈ libs) (hfail : parseLibraryElem lib = none) :
    parseLibraryList libs = none := by
  induction libs with
  | nil => exact absurd hmem (by simp)
  | cons l rest ih =>
    rw [parseLibraryList]
    cases hmem with
    | head => rw [hfail]
    | tail _ hmem =>
      split
      · rfl
      · rw [ih hmem]

/-- C1. On `exSoInterleaved` the section-bases count check passes (two
allocatable sections, two bases) and the offset table is filled as the
claim states: the allocatable sections at native indices 1 and 2
receive bases `100` and `200` in allocatable order. But the address
range comes out as `(200, 200)`: the only nonzero-sized allocatable
section (native index 1, allocatable rank 0) contributes
`low = section_bases[1] = 200` because the code indexes the range read
by the native index `i`, not by `bases_index`; the claim's minimum and
maximum over the sections' relocated ranges would be `(100, 100)`. -/
theorem c1_section_range_uses_native_index :
    (solib_target_relocate_section_addresses none none exSoInterleaved exSec).map
        (fun r => (r.so.addr_low, r.so.addr_high, r.so.lm_info.offsets))
      = some (200, 200, some [0, 100, 200]) ∧ (200 : Nat) ≠ 100 := by
  decide

/-- C10. On the object file `exSectionsTrailingAlloc` (one
non-allocatable section followed by one allocatable section of nonzero
size) with the single base `exBasesOne`, the count check passes, yet
the range computation reads `section_bases` at native index 1, one past
the end of the one-element vector: the recorded read indices of the
loop contain an index not smaller than the vector's length. -/
theorem c10_section_range_read_out_of_bounds :
    numAllocSections exSectionsTrailingAlloc = exBasesOne.length ∧
    (sectionLoop exBasesOne exSectionsTrailingAlloc
        (secLoopInit exSectionsTrailingAlloc.length)).map SecLoopState.range_reads
      = some [1] ∧
    exBasesOne.length ≤ 1 := by
  decide

/-- C2. With segment bases `0x1000` and `0x2000` against the file
layout `exSegData`, segment 1's delta is `0x2000 - 0x600 = 0x1A00`,
not `0x1000`, so the run of equal-delta segments stops after segment 0
and the reported range is `(0x1000, 0x0 + 0x500 + 0x1000) =
(0x1000, 0x1500)` — not the claimed high `0x1000 + 0x600 + 0x300 - 1`. -/
theorem c2_scenario_counterexample :
    (solib_target_relocate_section_addresses (some exSegData) (some [0, 0])
        exSoSegments exSec).map (fun r => (r.so.addr_low, r.so.addr_high))
      = some (0x1000, 0x1500) ∧
    (0x1500 : Nat) ≠ 0x1000 + 0x600 + 0x300 - 1 := by
  decide

/-- C2 amended. With bases `0x1000, 0x2000` the deltas differ, only
segment 0 joins the run, and the range is `(0x1000, 0x1500)`; with
bases `0x1000, 0x1600` — making segment 1's delta equal segment 0's
`0x1000` — both segments join the run and the range is
`(0x1000, 0x600 + 0x300 + 0x1000) = (0x1000, 0x1900)`: the code adds
the last segment's size and the shared delta without subtracting 1. -/
theorem c2_scenario_amended :
    (solib_target_relocate_section_addresses (some exSegData) (some [0, 0])
        exSoSegments exSec).map (fun r => (r.so.addr_low, r.so.addr_high))
      = some (0x1000, 0x1500) ∧
    (solib_target_relocate_section_addresses (some exSegData) (some [0, 0])
        exSoSegmentsMatched exSec).map (fun r => (r.so.addr_low, r.so.addr_high))
      = some (0x1000, 0x1900) := by
  decide

/-- A two-library document: a short-named library with one segment and
a library whose name has 600 characters, longer than the maximum path
size, with one section. -/
def exDocTwo : LibraryListDoc :=
  { version := some "1.0"
    libraries :=
      [ { name := ['l', 'i', 'b'], entries := [.segmentElem 3] }
      , { name := List.replicate 600 'z', entries := [.sectionElem 9] } ] }

/-- The records `exDocTwo` parses to. -/
def exInfosTwo : List LmInfoTarget :=
  [ { name := ['l', 'i', 'b'], segment_bases := [3], section_bases := [], offsets := none }
  , { name := List.replicate 600 'z', segment_bases := [], section_bases := [9],
      offsets := none } ]

/-- A document whose single library mixes a segment child and a
section child. -/
def exDocMixed : LibraryListDoc :=
  { version := none
    libraries := [ { name := ['m'], entries := [.segmentElem 1, .sectionElem 2] } ] }

/-- C4. For every document that parses, enumeration yields exactly one
generic node per library, in document order, and each node's display
name and original name are the parsed name when it is shorter than the
maximum path size and the name truncated to the maximum storable length
otherwise. -/
theorem c4_enumeration_names (doc : LibraryListDoc) (infos : List LmInfoTarget)
    (h : solib_target_parse_libraries doc = some infos) :
    (solib_target_current_sos (some doc)).length = doc.libraries.length ∧
    (solib_target_current_sos (some doc)).map
        (fun so => (so.so_name, so.so_original_name))
      = doc.libraries.map (fun lib => (claimedName lib.name, claimedName lib.name)) := by
  have hnames : infos.map LmInfoTarget.name = doc.libraries.map LibraryElem.name := by
    obtain ⟨ver, libs⟩ := doc
    cases ver with
    | none => exact parseLibraryList_names _ _ h
    | some v =>
      rw [solib_target_parse_libraries] at h
      split at h
      · exact parseLibraryList_names _ _ h
      · exact absurd h (by simp)
  have hsos : solib_target_current_sos (some doc) = infos.map makeSoList := by
    rw [solib_target_current_sos, h]
  constructor
  · rw [hsos, List.length_map]
    have := congrArg List.length hnames
    simpa using this
  · rw [hsos]
    have lhs : (infos.map makeSoList).map (fun so => (so.so_name, so.so_original_name))
        = (infos.map LmInfoTarget.name).map
            (fun n => (claimedName n, claimedName n)) := by
      simp [Function.comp, makeSoList, soCopyName_eq_claimedName]
    have rhs : doc.libraries.map (fun lib => (claimedName lib.name, claimedName lib.name))
        = (doc.libraries.map LibraryElem.name).map
            (fun n => (claimedName n, claimedName n)) := by
      simp [Function.comp]
    rw [lhs, rhs, hnames]

set_option maxRecDepth 40000 in
/-- C4 witness at `exDocTwo`: the document parses to `exInfosTwo` and
the enumeration conclusion holds there, exercising both the exact copy
(3 characters) and the truncation (600 characters cut to 511). -/
theorem c4_enumeration_names_witness :
    (solib_target_current_sos (some exDocTwo)).length = exDocTwo.libraries.length ∧
    (solib_target_current_sos (some exDocTwo)).map
        (fun so => (so.so_name, so.so_original_name))
      = exDocTwo.libraries.map (fun lib => (claimedName lib.name, claimedName lib.name)) :=
  c4_enumeration_names exDocTwo exInfosTwo (by decide)

/-- C7. A version attribute carrying any string other than the literal
`"1.0"` — for example `"2.0"` — fails the parse whatever the libraries
are, while an omitted version attribute parses the libraries exactly as
the accepted version `"1.0"` does. -/
theorem c7_version_handling :
    (∀ (v : String) (libs : List LibraryElem), v ≠ "1.0" →
      solib_target_parse_libraries { version := some v, libraries := libs } = none) ∧
    (∀ libs : List LibraryElem,
      solib_target_parse_libraries { version := none, libraries := libs }
        = solib_target_parse_libraries { version := some "1.0", libraries := libs }) := by
  constructor
  · intro v libs hv
    rw [solib_target_parse_libraries]
    rw [if_neg hv]
  · intro libs
    rw [solib_target_parse_libraries, solib_target_parse_libraries]
    rw [if_pos rfl]

/-- C7 witness: the unsupported version string `"2.0"` differs from
`"1.0"` and fails the parse of an otherwise empty document. -/
theorem c7_version_handling_witness :
    ("2.0" : String) ≠ "1.0" ∧
    solib_target_parse_libraries { version := some "2.0", libraries := [] } = none :=
  ⟨by decide, c7_version_handling.1 "2.0" [] (by decide)⟩

/-- C8. A document containing a library element with both segment and
section children fails parsing as a whole, and enumeration of that
document yields the empty result. -/
theorem c8_mixed_children_fail (doc : LibraryListDoc) (lib : LibraryElem)
    (hmem : lib ∈ doc.libraries)
    (hseg : ∃ a, LibEntry.segmentElem a ∈ lib.entries)
    (hsec : ∃ a, LibEntry.sectionElem a ∈ lib.entries) :
    solib_target_parse_libraries doc = none ∧
    solib_target_current_sos (some doc) = [] := by
  have hlist : parseLibraryList doc.libraries = none :=
    parseLibraryList_fails_of_mem doc.libraries lib hmem
      (parseLibraryElem_fails_of_mixed lib hseg hsec)
  have hp : solib_target_parse_libraries doc = none := by
    obtain ⟨ver, libs⟩ := doc
    cases ver with
    | none => exact hlist
    | some v =>
      rw [solib_target_parse_libraries]
      split
      · exact hlist
      · rfl
  refine ⟨hp, ?_⟩
  rw [solib_target_current_sos, hp]

/-- C8 witness at `exDocMixed`, whose library has a segment child with
address 1 and a section child with address 2. -/
theorem c8_mixed_children_fail_witness :
    solib_target_parse_libraries exDocMixed = none ∧
    solib_target_current_sos (some exDocMixed) = [] :=
  c8_mixed_children_fail exDocMixed
    { name := ['m'], entries := [.segmentElem 1, .sectionElem 2] }
    (by decide) ⟨1, by decide⟩ ⟨2, by decide⟩

/-- C9. Every node produced by enumeration has its record's name
cleared at hand-off, so the assertion in the destructor holds and the
record is released. -/
theorem c9_name_cleared_at_handoff (library_document : Option LibraryListDoc)
    (so : SoList) (hmem : so ∈ solib_target_current_sos library_document) :
    so.lm_info.name = [] ∧ solib_target_free_so so = some () := by
  have hname : so.lm_info.name = [] := by
    cases library_document with
    | none => exact absurd hmem (by simp [solib_target_current_sos])
    | some doc =>
      rw [solib_target_current_sos] at hmem
      cases hp : solib_target_parse_libraries doc with
      | none => rw [hp] at hmem; exact absurd hmem (by simp)
      | some infos =>
        rw [hp] at hmem
        obtain ⟨info, _, rfl⟩ := List.mem_map.mp hmem
        rfl
  exact ⟨hname, by unfold solib_target_free_so; rw [if_pos hname]⟩

/-- C9 witness: the first node enumerated from `exDocTwo` has an empty
record name and its destructor assertion holds. -/
theorem c9_name_cleared_at_handoff_witness :
    (makeSoList { name := ['l', 'i', 'b'], segment_bases := [3], section_bases := [],
                  offsets := none }).lm_info.name = [] ∧
    solib_target_free_so
        (makeSoList { name := ['l', 'i', 'b'], segment_bases := [3], section_bases := [],
                      offsets := none })
      = some () :=
  c9_name_cleared_at_handoff (some exDocTwo) _ (by decide)

/-- When the offset-table cache is already present, a relocate call
performs only the per-section lookup and addition. -/
theorem relocate_cached (segData : Option SegmentData) (mapResult : Option (List Nat))
    (so : SoList) (sec : TargetSection) (table : List Nat)
    (h : so.lm_info.offsets = some table) :
    solib_target_relocate_section_addresses segData mapResult so sec
      = some { so := so, sec := applyOffset table sec,
               computed := false, warned := false } := by
  simp only [solib_target_relocate_section_addresses, h]

/-- Every successful relocate call on a record without a cached table
computes it: the result is flagged as computed and carries a cache. -/
theorem relocate_sets_cache (segData : Option SegmentData) (mapResult : Option (List Nat))
    (so : SoList) (sec : TargetSection) (r : RelocResult)
    (hnone : so.lm_info.offsets = none)
    (h : solib_target_relocate_section_addresses segData mapResult so sec = some r) :
    r.computed = true ∧ ∃ table, r.so.lm_info.offsets = some table := by
  simp only [solib_target_relocate_section_addresses, hnone] at h
  repeat' split at h
  all_goals
    first
    | exact Option.noConfusion h
    | · injection h with h
        subst h
        exact ⟨rfl, _, rfl⟩

/-- The result of a relocate call on a library whose section count does
not match its section bases, or whose object file has no segment
layout: the zero offset table is installed, the section is adjusted by
the zero offset, the warning is emitted, and the node's address range
is untouched. -/
def mismatchResult (so : SoList) (sec : TargetSection) : RelocResult :=
  { so := { so with lm_info :=
      { so.lm_info with offsets := some (List.replicate so.abfd_sections.length 0) } }
    sec := applyOffset (List.replicate so.abfd_sections.length 0) sec
    computed := true
    warned := true }

/-- C3 (amended). On a RelocationMismatch of the count-mismatch kind
(allocatable-section count differing from the section-bases length) or
the absent-segment-layout kind, relocate warns, does not abort, leaves
the offset table zero, and leaves the node's address range unchanged —
at its default `(0, 0)` for a freshly enumerated node. (The third
mismatch kind, a failed base-to-offset mapping, warns but still sets
the range from the segment bases; see the counterexample.) -/
theorem c3_mismatch_warns_without_relocating (segData : Option SegmentData)
    (mapResult : Option (List Nat)) (so : SoList) (sec : TargetSection)
    (hoff : so.lm_info.offsets = none)
    (hcase : (so.lm_info.section_bases ≠ [] ∧
              numAllocSections so.abfd_sections ≠ so.lm_info.section_bases.length)
           ∨ (so.lm_info.section_bases = [] ∧ so.lm_info.segment_bases ≠ [] ∧
              segData = none)) :
    solib_target_relocate_section_addresses segData mapResult so sec
      = some (mismatchResult so sec) ∧
    (mismatchResult so sec).warned = true ∧
    (mismatchResult so sec).so.addr_low = so.addr_low ∧
    (mismatchResult so sec).so.addr_high = so.addr_high ∧
    (mismatchResult so sec).so.lm_info.offsets
      = some (List.replicate so.abfd_sections.length 0) := by
  refine ⟨?_, rfl, rfl, rfl, rfl⟩
  simp only [solib_target_relocate_section_addresses, hoff]
  rcases hcase with ⟨h1, h2⟩ | ⟨h1, h2, h3⟩
  · rw [if_pos h1, if_pos h2]
    rfl
  · rw [if_neg (by simp [h1]), if_pos h2, h3]
    rfl

/-- C3 witness: a library reporting one section base against an object
file with no sections at all (zero allocatable sections): the count
check fails and the node keeps its default range. -/
theorem c3_mismatch_warns_without_relocating_witness :
    solib_target_relocate_section_addresses none none exSoCountMismatch exSec
      = some (mismatchResult exSoCountMismatch exSec) ∧
    (mismatchResult exSoCountMismatch exSec).warned = true ∧
    (mismatchResult exSoCountMismatch exSec).so.addr_low = exSoCountMismatch.addr_low ∧
    (mismatchResult exSoCountMismatch exSec).so.addr_high = exSoCountMismatch.addr_high ∧
    (mismatchResult exSoCountMismatch exSec).so.lm_info.offsets
      = some (List.replicate exSoCountMismatch.abfd_sections.length 0) :=
  c3_mismatch_warns_without_relocating none none exSoCountMismatch exSec rfl
    (Or.inl (by decide))

/-- C5. The offset table is computed at most once per record: the first
successful relocate call on a record without a cache flags itself as
having computed the table and installs the cache, and a subsequent call
on the resulting record — for any section and any external inputs —
performs only the lookup and addition of the cached offset to the
section's bounds, leaves the node untouched, emits no warning, and does
not recompute. -/
theorem c5_offsets_computed_once (segData segData2 : Option SegmentData)
    (mapResult mapResult2 : Option (List Nat)) (so : SoList)
    (sec sec2 : TargetSection) (r : RelocResult)
    (hnone : so.lm_info.offsets = none)
    (h : solib_target_relocate_section_addresses segData mapResult so sec = some r) :
    r.computed = true ∧ r.so.lm_info.offsets.isSome = true ∧
    solib_target_relocate_section_addresses segData2 mapResult2 r.so sec2
      = some { so := r.so, sec := applyOffset (r.so.lm_info.offsets.getD []) sec2,
               computed := false, warned := false } := by
  obtain ⟨hc, table, ht⟩ := relocate_sets_cache segData mapResult so sec r hnone h
  refine ⟨hc, by rw [ht]; rfl, ?_⟩
  rw [relocate_cached segData2 mapResult2 r.so sec2 table ht, ht]
  rfl

/-- C5 witness: the first call on `exSoAllAlloc` computes the cache,
and the second call on the resulting node only adjusts the new section. -/
theorem c5_offsets_computed_once_witness :
    exRelocResultAll.computed = true ∧
    exRelocResultAll.so.lm_info.offsets.isSome = true ∧
    solib_target_relocate_section_addresses none none exRelocResultAll.so exSec2
      = some { so := exRelocResultAll.so,
               sec := applyOffset (exRelocResultAll.so.lm_info.offsets.getD []) exSec2,
               computed := false, warned := false } :=
  c5_offsets_computed_once none none none none exSoAllAlloc exSec exSec2
    exRelocResultAll rfl (by decide)

/-- C6. Whenever a relocate call returns (no assertion fires), the
node's address range is ordered: `addr_low ≤ addr_high`, given that it
was ordered before the call — in particular for the degenerate default
`addr_low = addr_high = 0` of a freshly enumerated node, which the
branches that do not set the range leave in place. -/
theorem c6_addr_range_ordered (segData : Option SegmentData)
    (mapResult : Option (List Nat)) (so : SoList) (sec : TargetSection)
    (r : RelocResult)
    (h0 : so.addr_low ≤ so.addr_high)
    (h : solib_target_relocate_section_addresses segData mapResult so sec = some r) :
    r.so.addr_low ≤ r.so.addr_high := by
  simp only [solib_target_relocate_section_addresses] at h
  repeat' split at h
  all_goals
    first
    | exact Option.noConfusion h
    | · injection h with h
        subst h
        first
        | exact h0
        | assumption

/-- C6 witness: the node `exSoAllAlloc` starts with the ordered default
range, and after relocation the resulting range `(100, 301)` is
ordered. -/
theorem c6_addr_range_ordered_witness :
    exSoAllAlloc.addr_low ≤ exSoAllAlloc.addr_high ∧
    exRelocResultAll.so.addr_low ≤ exRelocResultAll.so.addr_high :=
  ⟨by decide,
   c6_addr_range_ordered none none exSoAllAlloc exSec exRelocResultAll
     (by decide) (by decide)⟩

/-- C3 counterexample. When the external base-to-segment mapping fails
(`symfile_map_offsets_to_segments` returns failure), relocation of
`exSoOneSegment` against `exSegDataOne` emits the warning but still
computes and assigns the node's address range from the segment bases:
the range becomes `(0x1000, 0x1500)`, not the default `(0, 0)`. -/
theorem c3_failed_mapping_sets_range :
    (solib_target_relocate_section_addresses (some exSegDataOne) none
        exSoOneSegment exSec).map (fun r => (r.warned, r.so.addr_low, r.so.addr_high))
      = some (true, 0x1000, 0x1500) ∧
    ((0x1000 : Nat), (0x1500 : Nat)) ≠ ((0 : Nat), (0 : Nat)) := by
  decide

end SolibTarget
